import Mathlib

/-!
Shallow embedding of the flash tool (the single Python source file of the
repository).

The tool talks to a device through external processes (`adb`, `fastboot`,
`payload-dumper-go`).  We model the outside world as an environment of
scripted process results and file-system facts, and embed the control flow
of `flash_images_from_folder` and `unpack_payload` over that environment.
Each run returns its printed/observable result together with the trace of
device-control commands it issued, so that temporal claims ("command X is
never issued", "zero flash attempts occur") are statable.
-/

namespace FlashTool

/-- Result of one external process invocation (Python `subprocess.run`):
exit code and captured output streams. -/
structure ProcResult where
  returncode : Int
  stdout : String
  stderr : String
deriving DecidableEq, Repr

/-- One device-control command issued through the debug bridge (`adb`) or the
bootloader interface (`fastboot`).  `adbDevices` (listing devices connected in
normal mode) is part of the command vocabulary but is never issued by this
program; it is included so that "probes connectivity in normal mode" is a
statable property of a trace. -/
inductive Cmd where
  | adbDevices
  | fastbootDevices
  | adbRebootBootloader
  | adbRebootFastboot
  | fastbootFlash (partitionName : String) (imgPath : String)
deriving DecidableEq, Repr

/-- Environment for one run of `flash_images_from_folder`: everything the
code observes from the outside world.  `fastbootDevices n` is the result of
the n-th `fastboot devices` invocation (the code calls it up to three times
and the device may change state in between); `listing` is what
`os.listdir(image_dir)` returns, in directory-listing order; `choice` is the
answer the user types at the fastbootd prompt; `flash p path` is the result
of `fastboot flash p path`. -/
structure Env where
  toolsOk : Bool
  dirExists : Bool
  listing : List String
  fastbootDevices : Nat → ProcResult
  adbRebootBootloader : ProcResult
  adbRebootFastboot : ProcResult
  choice : String
  flash : String → String → ProcResult

/-- Whitespace in the sense of Python `str.strip` (the ASCII cases). -/
def pyIsSpace (c : Char) : Bool :=
  c = ' ' || c = '\t' || c = '\n' || c = '\r' || c = '\x0b' || c = '\x0c'

/-- Embedding of Python `str.strip()`: drop leading and trailing whitespace. -/
def pyStrip (s : String) : String :=
  String.mk (((s.toList.dropWhile pyIsSpace).reverse.dropWhile pyIsSpace).reverse)

/-- Embedding of Python `str.lower()` on one character (ASCII case). -/
def pyLowerChar (c : Char) : Char :=
  if 'A' ≤ c ∧ c ≤ 'Z' then Char.ofNat (c.toNat + 32) else c

/-- Embedding of Python `str.lower()`. -/
def pyLower (s : String) : String :=
  String.mk (s.toList.map pyLowerChar)

/-- Embedding of Python `str.endswith(suf)`. -/
def endswith (s suf : String) : Bool :=
  suf.toList.isSuffixOf s.toList

/-- Embedding of Python `str.startswith(pre)`. -/
def startswith (s pre : String) : Bool :=
  pre.toList.isPrefixOf s.toList

/-- Embedding of the inner `check_device_connected` (source lines 63-69):
`fastboot devices` succeeded and printed a non-empty device list.
The Python code returns False when the exit code is nonzero or the decoded,
stripped standard output is empty. -/
def check_device_connected (r : ProcResult) : Bool :=
  !(r.returncode != 0 || pyStrip r.stdout == "")

/-- Index of the last '.' in a list of characters, if any. -/
def lastDotIdx : List Char → Option Nat
  | [] => none
  | c :: cs =>
    match lastDotIdx cs with
    | some i => some (i + 1)
    | none => if c = '.' then some 0 else none

/-- Embedding of Python `os.path.splitext`, restricted to bare file names
(entries of `os.listdir` contain no path separator, so the separator search
of the original always yields -1 here).  CPython splits at the last dot,
unless every character before that dot is itself a dot (leading dots are
part of the root, so `".img"` has no extension). -/
def splitext (p : String) : String × String :=
  let cs := p.toList
  match lastDotIdx cs with
  | none => (p, "")
  | some d =>
    if (cs.take d).any (fun c => c != '.') then
      (String.mk (cs.take d), String.mk (cs.drop d))
    else
      (p, "")

/-- Embedding of `os.path.join` for POSIX paths, as used at source line 113. -/
def path_join (a b : String) : String :=
  if startswith b "/" then b
  else if a == "" || endswith a "/" then a ++ b
  else a ++ "/" ++ b

/-- Result of attempting to flash one partition image (the FlashOutcome of
the spec; the source prints these facts at lines 125-130). -/
structure FlashOutcome where
  partitionName : String
  succeeded : Bool
  errorDetail : Option String
deriving DecidableEq, Repr

/-- Embedding of the flashing loop (source lines 110-130): for every listed
file name ending in ".img", flash the partition named by its
`os.path.splitext` root and record the outcome; other entries are skipped.
Returns the recorded outcomes and the flash commands issued, in order. -/
def flashLoop (env : Env) (image_dir : String) :
    List String → List FlashOutcome × List Cmd
  | [] => ([], [])
  | filename :: rest =>
    if endswith filename ".img" then
      let partition_name := (splitext filename).1
      let img_path := path_join image_dir filename
      let result := env.flash partition_name img_path
      let outcome : FlashOutcome :=
        if result.returncode == 0 then
          { partitionName := partition_name, succeeded := true, errorDetail := none }
        else
          { partitionName := partition_name, succeeded := false,
            errorDetail := some result.stderr }
      let restRes := flashLoop env image_dir rest
      (outcome :: restRes.1, Cmd.fastbootFlash partition_name img_path :: restRes.2)
    else
      flashLoop env image_dir rest

/-- Overall session status (the session report statuses of the spec; the source
signals these by printing a message and returning early). -/
inductive SessionStatus where
  | abortedNoDirectory
  | toolUnavailable
  | abortedUnreachable
  | abortedEscalation
  | completed
deriving DecidableEq, Repr

/-- What one run of `flash_images_from_folder` produces: a status, the
ordered per-partition outcomes, and the trace of device-control commands
issued. -/
structure SessionResult where
  status : SessionStatus
  outcomes : List FlashOutcome
  trace : List Cmd
deriving DecidableEq, Repr

/-- The flash phase proper: run the loop and report completion. -/
def runFlashPhase (env : Env) (image_dir : String) (tr : List Cmd) : SessionResult :=
  let res := flashLoop env image_dir env.listing
  { status := .completed, outcomes := res.1, trace := tr ++ res.2 }

/-- Source lines 97-107: the fastbootd prompt and (when the stripped,
lowercased answer is "y") the escalation `adb reboot fastboot` followed by a
settle delay and a re-probe; either failure aborts with nothing flashed.
`nextProbe` is the index of the next `fastboot devices` call. -/
def sessionAfterReach (env : Env) (image_dir : String) (nextProbe : Nat)
    (tr : List Cmd) : SessionResult :=
  if pyLower (pyStrip env.choice) == "y" then
    if env.adbRebootFastboot.returncode != 0 then
      { status := .abortedEscalation, outcomes := [],
        trace := tr ++ [.adbRebootFastboot] }
    else if !check_device_connected (env.fastbootDevices nextProbe) then
      { status := .abortedEscalation, outcomes := [],
        trace := tr ++ [.adbRebootFastboot, .fastbootDevices] }
    else
      runFlashPhase env image_dir (tr ++ [.adbRebootFastboot, .fastbootDevices])
  else
    runFlashPhase env image_dir tr

/-- Embedding of `flash_images_from_folder` (source lines 47-130).  In
order: the directory existence check, tool discovery (`check_adb_fastboot`,
which exits the process when neither the system tools nor the bundled ones
exist), the initial `fastboot devices` probe, on probe failure the
`adb reboot bootloader` attempt with settle delay and re-probe, the
fastbootd escalation prompt, and finally the flashing loop. -/
def flash_images_from_folder (env : Env) (image_dir : String) : SessionResult :=
  if !env.dirExists then
    { status := .abortedNoDirectory, outcomes := [], trace := [] }
  else if !env.toolsOk then
    { status := .toolUnavailable, outcomes := [], trace := [] }
  else if !check_device_connected (env.fastbootDevices 0) then
    if env.adbRebootBootloader.returncode != 0 then
      { status := .abortedUnreachable, outcomes := [],
        trace := [.fastbootDevices, .adbRebootBootloader] }
    else if !check_device_connected (env.fastbootDevices 1) then
      { status := .abortedUnreachable, outcomes := [],
        trace := [.fastbootDevices, .adbRebootBootloader, .fastbootDevices] }
    else
      sessionAfterReach env image_dir 2
        [.fastbootDevices, .adbRebootBootloader, .fastbootDevices]
  else
    sessionAfterReach env image_dir 1 [.fastbootDevices]

/-- Is this command a partition flash attempt? -/
def isFlashCmd : Cmd → Bool
  | .fastbootFlash _ _ => true
  | _ => false

/-- The partition flash attempts within a command trace. -/
def flashCmds (t : List Cmd) : List Cmd := t.filter isFlashCmd

/-- The outcome the loop body records for one candidate file (used to state
a closed form of `flashLoop`). -/
def loopOutcome (env : Env) (image_dir f : String) : FlashOutcome :=
  let result := env.flash (splitext f).1 (path_join image_dir f)
  if result.returncode == 0 then
    { partitionName := (splitext f).1, succeeded := true, errorDetail := none }
  else
    { partitionName := (splitext f).1, succeeded := false,
      errorDetail := some result.stderr }

/-- The flash command the loop body issues for one candidate file. -/
def loopCmd (image_dir f : String) : Cmd :=
  Cmd.fastbootFlash (splitext f).1 (path_join image_dir f)

/-- Following the words of the spec ("the partition name is the name of the
entry with that suffix stripped"): remove the final four characters, the
".img" suffix, unconditionally.  Stated only to compare the spec against the code,
which uses `splitext` instead. -/
def specStripImgSuffix (f : String) : String :=
  String.mk (f.toList.take (f.toList.length - 4))

/-- Following the words of the spec ("probes device connectivity in normal
mode"): listing the devices connected in normal mode is done over the debug
bridge, i.e. by `adb devices`.  Stated only to compare the spec against the
code, which probes with `fastboot devices` (a bootloader-mode listing, per
the doc string of `check_device_connected` in the source). -/
def specNormalModeProbe : Cmd := Cmd.adbDevices

/-- Outcome of the `subprocess.run(command, check=True)` call inside
`unpack_payload`: success, a nonzero exit (CalledProcessError), or a missing
executable (FileNotFoundError). -/
inductive RunResult where
  | ok
  | calledProcessError
  | fileNotFound
deriving DecidableEq, Repr

/-- Environment for one run of `unpack_payload`: whether the payload archive
and the dumper executable exist, and how the dumper invocation ends. -/
structure ExtractEnv where
  payloadExists : Bool
  dumperExists : Bool
  runResult : RunResult
deriving DecidableEq, Repr

/-- Observable steps of `unpack_payload`, in program order. -/
inductive ExtractEvent where
  | mkdirOutputDir
  | checkPayloadExists
  | checkDumperExists
  | runDumper
deriving DecidableEq, Repr

/-- Reported result of `unpack_payload` (the source prints an error message
and returns early on each failure). -/
inductive ExtractStatus where
  | ok
  | failedMissingPayload
  | failedMissingDumper
  | failedRun
deriving DecidableEq, Repr

/-- What one run of `unpack_payload` produces: its status, the ordered
observable steps, and the device-control commands it issued (the source
issues none; the field makes that a provable fact rather than an omission). -/
structure ExtractResult where
  status : ExtractStatus
  events : List ExtractEvent
  deviceCmds : List Cmd
deriving DecidableEq, Repr

/-- Embedding of `unpack_payload` (source lines 133-172).  In order: create
the output directory with parents (`mkdir(parents=True, exist_ok=True)`,
line 149), check that the payload archive exists (return early if not,
lines 152-155), check that the dumper executable exists (return early if
not, lines 158-160), then invoke the dumper, catching the two exception
kinds (lines 169-174). -/
def unpack_payload (env : ExtractEnv) : ExtractResult :=
  if !env.payloadExists then
    { status := .failedMissingPayload,
      events := [.mkdirOutputDir, .checkPayloadExists], deviceCmds := [] }
  else if !env.dumperExists then
    { status := .failedMissingDumper,
      events := [.mkdirOutputDir, .checkPayloadExists, .checkDumperExists],
      deviceCmds := [] }
  else
    match env.runResult with
    | .ok =>
      { status := .ok,
        events := [.mkdirOutputDir, .checkPayloadExists, .checkDumperExists,
          .runDumper],
        deviceCmds := [] }
    | .calledProcessError =>
      { status := .failedRun,
        events := [.mkdirOutputDir, .checkPayloadExists, .checkDumperExists,
          .runDumper],
        deviceCmds := [] }
    | .fileNotFound =>
      { status := .failedRun,
        events := [.mkdirOutputDir, .checkPayloadExists, .checkDumperExists,
          .runDumper],
        deviceCmds := [] }

/-! Concrete environments used to evaluate the theorems on closed inputs. -/

/-- A device that is never detected: every `fastboot devices` call exits 0
with empty output, while `adb reboot bootloader` itself succeeds. -/
def envUnreach : Env where
  toolsOk := true
  dirExists := true
  listing := ["boot.img"]
  fastbootDevices := fun _ => { returncode := 0, stdout := "", stderr := "" }
  adbRebootBootloader := { returncode := 0, stdout := "", stderr := "" }
  adbRebootFastboot := { returncode := 0, stdout := "", stderr := "" }
  choice := "n"
  flash := fun _ _ => { returncode := 0, stdout := "", stderr := "" }

/-- A reachable device, an answer of "n" at the fastbootd prompt, and a
flash oracle that fails exactly on partition "b" with a diagnostic. -/
def envReach : Env where
  toolsOk := true
  dirExists := true
  listing := ["a.img", "notes.txt", "b.img", "c.img"]
  fastbootDevices := fun _ =>
    { returncode := 0, stdout := "0123456789\tfastboot\n", stderr := "" }
  adbRebootBootloader := { returncode := 0, stdout := "", stderr := "" }
  adbRebootFastboot := { returncode := 0, stdout := "", stderr := "" }
  choice := "n"
  flash := fun p _ =>
    if p == "b" then { returncode := 1, stdout := "", stderr := "write failed" }
    else { returncode := 0, stdout := "OKAY", stderr := "" }

/-- A reachable device where the user asks for fastbootd ("y") but the
escalation reboot command fails. -/
def envEscFail : Env where
  toolsOk := true
  dirExists := true
  listing := ["system.img"]
  fastbootDevices := fun _ =>
    { returncode := 0, stdout := "0123456789\tfastboot\n", stderr := "" }
  adbRebootBootloader := { returncode := 0, stdout := "", stderr := "" }
  adbRebootFastboot := { returncode := 1, stdout := "", stderr := "no device" }
  choice := "y"
  flash := fun _ _ => { returncode := 0, stdout := "", stderr := "" }

/-- An environment whose image directory does not exist. -/
def envNoDir : Env where
  toolsOk := true
  dirExists := false
  listing := []
  fastbootDevices := fun _ =>
    { returncode := 0, stdout := "0123456789\tfastboot\n", stderr := "" }
  adbRebootBootloader := { returncode := 0, stdout := "", stderr := "" }
  adbRebootFastboot := { returncode := 0, stdout := "", stderr := "" }
  choice := "n"
  flash := fun _ _ => { returncode := 0, stdout := "", stderr := "" }

/-- An extraction environment with a missing payload archive but an
available dumper that would succeed. -/
def envNoPayload : ExtractEnv where
  payloadExists := false
  dumperExists := true
  runResult := .ok

end FlashTool

namespace FlashTool

/-- The flashing loop distributes over list append: outcomes and commands of
a concatenated listing are the concatenations of the parts. -/
theorem flashLoop_append (env : Env) (d : String) (xs ys : List String) :
    flashLoop env d (xs ++ ys) =
      ((flashLoop env d xs).1 ++ (flashLoop env d ys).1,
       (flashLoop env d xs).2 ++ (flashLoop env d ys).2) := by
  induction xs with
  | nil => simp [flashLoop]
  | cons x xs ih =>
    by_cases hx : endswith x ".img" = true
    · simp [flashLoop, hx, ih]
    · simp [flashLoop, hx, ih]

/-- Closed form of the flashing loop: it records one outcome and issues one
flash command per candidate (listed file ending in ".img"), in listing
order, and nothing for other entries. -/
theorem flashLoop_eq_filter_map (env : Env) (d : String) (files : List String) :
    flashLoop env d files =
      ((files.filter (fun f => endswith f ".img")).map (loopOutcome env d),
       (files.filter (fun f => endswith f ".img")).map (loopCmd d)) := by
  induction files with
  | nil => simp [flashLoop]
  | cons x xs ih =>
    by_cases hx : endswith x ".img" = true
    · simp [flashLoop, hx, ih, loopOutcome, loopCmd]
    · simp [flashLoop, hx, ih]

/-- Every command issued by the flashing loop is a partition flash. -/
theorem flashLoop_cmds_are_flashes (env : Env) (d : String)
    (files : List String) :
    ∀ c ∈ (flashLoop env d files).2, isFlashCmd c = true := by
  intro c hc
  rw [flashLoop_eq_filter_map] at hc
  simp only [List.mem_map] at hc
  obtain ⟨f, _, rfl⟩ := hc
  rfl

/-- Whatever happens after the device is reached, the commands already
issued stay as a prefix of the session trace. -/
theorem sessionAfterReach_trace_append (env : Env) (d : String) (n : Nat)
    (tr : List Cmd) :
    ∃ rest, (sessionAfterReach env d n tr).trace = tr ++ rest := by
  unfold sessionAfterReach runFlashPhase
  split
  · split
    · exact ⟨_, rfl⟩
    · split
      · exact ⟨_, rfl⟩
      · exact ⟨[Cmd.adbRebootFastboot, Cmd.fastbootDevices]
          ++ (flashLoop env d env.listing).2, by simp⟩
  · exact ⟨_, rfl⟩

/-- A command that is neither the escalation reboot, nor a device listing,
nor a partition flash occurs in the trace after reaching the device exactly
when it was already in the accumulated trace. -/
theorem sessionAfterReach_mem_trace (env : Env) (d : String) (n : Nat)
    (tr : List Cmd) (c : Cmd)
    (h1 : c ≠ Cmd.adbRebootFastboot) (h2 : c ≠ Cmd.fastbootDevices)
    (h3 : isFlashCmd c = false) :
    (c ∈ (sessionAfterReach env d n tr).trace ↔ c ∈ tr) := by
  have hflash : c ∉ (flashLoop env d env.listing).2 := by
    intro hc
    have := flashLoop_cmds_are_flashes env d env.listing c hc
    rw [h3] at this
    exact Bool.false_ne_true this
  unfold sessionAfterReach runFlashPhase
  split
  · split
    · simp [h1]
    · split
      · simp [h1, h2]
      · simp [h1, h2, hflash]
  · simp [hflash]

/-- When the user declines the fastbootd prompt, the phase after reaching
the device goes straight to the flashing loop. -/
theorem sessionAfterReach_no_request_trace (env : Env) (d : String) (n : Nat)
    (tr : List Cmd) (hn : pyLower (pyStrip env.choice) ≠ "y") :
    (sessionAfterReach env d n tr).trace = tr ++ (flashLoop env d env.listing).2 := by
  simp [sessionAfterReach, runFlashPhase, beq_iff_eq, hn]

/-- When the user accepts the fastbootd prompt and the escalation reboot
fails, or the device is not detected by the re-probe, the phase after
reaching the device aborts with no outcomes and no flash command. -/
theorem sessionAfterReach_escalation_abort (env : Env) (d : String) (n : Nat)
    (tr : List Cmd) (hy : pyLower (pyStrip env.choice) = "y")
    (hfail : env.adbRebootFastboot.returncode ≠ 0 ∨
      check_device_connected (env.fastbootDevices n) = false) :
    (sessionAfterReach env d n tr).status = .abortedEscalation ∧
    (sessionAfterReach env d n tr).outcomes = [] ∧
    ((sessionAfterReach env d n tr).trace = tr ++ [.adbRebootFastboot] ∨
     (sessionAfterReach env d n tr).trace =
       tr ++ [.adbRebootFastboot, .fastbootDevices]) := by
  by_cases hq : env.adbRebootFastboot.returncode = 0
  · rcases hfail with hf | hf
    · exact absurd hq hf
    · simp [sessionAfterReach, hy, hq, hf]
  · simp [sessionAfterReach, hy, hq, bne_iff_ne]

/-- C1: when the connectivity probe fails before the reboot-to-bootloader
attempt, and the reboot command itself fails or the probe fails again after
it, the session aborts as unreachable, records no outcomes, and issues zero
partition flash commands. -/
theorem C1_unreachable_aborts_with_no_flashes (env : Env) (d : String)
    (hdir : env.dirExists = true) (htools : env.toolsOk = true)
    (h0 : check_device_connected (env.fastbootDevices 0) = false)
    (h1 : env.adbRebootBootloader.returncode ≠ 0 ∨
      check_device_connected (env.fastbootDevices 1) = false) :
    (flash_images_from_folder env d).status = .abortedUnreachable ∧
    (flash_images_from_folder env d).outcomes = [] ∧
    flashCmds (flash_images_from_folder env d).trace = [] := by
  by_cases hrb : env.adbRebootBootloader.returncode = 0
  · rcases h1 with h1 | h1
    · exact absurd hrb h1
    · simp [flash_images_from_folder, hdir, htools, h0, hrb, h1, flashCmds,
        isFlashCmd]
  · simp [flash_images_from_folder, hdir, htools, h0, hrb, flashCmds,
      isFlashCmd, bne_iff_ne]

/-- C1 witness: a concrete device that is never detected, with a reboot
command that itself succeeds. -/
theorem C1_witness :
    envUnreach.dirExists = true ∧ envUnreach.toolsOk = true ∧
    check_device_connected (envUnreach.fastbootDevices 0) = false ∧
    check_device_connected (envUnreach.fastbootDevices 1) = false ∧
    ((flash_images_from_folder envUnreach "image").status =
        .abortedUnreachable ∧
      (flash_images_from_folder envUnreach "image").outcomes = [] ∧
      flashCmds (flash_images_from_folder envUnreach "image").trace = []) :=
  ⟨by decide, by decide, by decide, by decide,
    C1_unreachable_aborts_with_no_flashes envUnreach "image" (by decide)
      (by decide) (by decide) (Or.inr (by decide))⟩

/-- C2: a failed flash of one candidate is recorded as an outcome with
succeeded false carrying the diagnostic output of the flash operation, and
does not stop the loop: every candidate after it is still attempted and its
outcome is unchanged. -/
theorem C2_flash_failure_is_isolated (env : Env) (d : String)
    (pre post : List String) (f : String)
    (himg : endswith f ".img" = true)
    (hfail : (env.flash (splitext f).1 (path_join d f)).returncode ≠ 0) :
    (flashLoop env d (pre ++ f :: post)).1 =
      (flashLoop env d pre).1 ++
        { partitionName := (splitext f).1, succeeded := false,
            errorDetail := some (env.flash (splitext f).1 (path_join d f)).stderr }
          :: (flashLoop env d post).1 ∧
    (flashLoop env d (pre ++ f :: post)).2 =
      (flashLoop env d pre).2 ++ loopCmd d f :: (flashLoop env d post).2 := by
  have h := flashLoop_append env d pre (f :: post)
  constructor <;> simp [h, flashLoop, himg, hfail, loopCmd, beq_iff_eq]

/-- C2 witness: in the listing of envReach the flash of partition "b"
fails; the outcomes of "a" before it and "c" after it are untouched. -/
theorem C2_witness :
    endswith "b.img" ".img" = true ∧
    (envReach.flash (splitext "b.img").1 (path_join "image" "b.img")).returncode ≠ 0 ∧
    ((flashLoop envReach "image" (["a.img", "notes.txt"] ++ "b.img" :: ["c.img"])).1 =
      (flashLoop envReach "image" ["a.img", "notes.txt"]).1 ++
        { partitionName := (splitext "b.img").1, succeeded := false,
            errorDetail :=
              some (envReach.flash (splitext "b.img").1
                (path_join "image" "b.img")).stderr }
          :: (flashLoop envReach "image" ["c.img"]).1 ∧
    (flashLoop envReach "image" (["a.img", "notes.txt"] ++ "b.img" :: ["c.img"])).2 =
      (flashLoop envReach "image" ["a.img", "notes.txt"]).2 ++
        loopCmd "image" "b.img" :: (flashLoop envReach "image" ["c.img"]).2) :=
  ⟨by decide, by decide,
    C2_flash_failure_is_isolated envReach "image" ["a.img", "notes.txt"]
      ["c.img"] "b.img" (by decide) (by decide)⟩

/-- C3 counterexample: in a directory whose listing is the single entry
".img", one flash attempt occurs and it targets partition ".img", not the
name with the ".img" suffix stripped (the empty string) that the claim
prescribes. -/
theorem C3_counterexample :
    (flashLoop envReach "image" [".img"]).2 =
      [Cmd.fastbootFlash ".img" "image/.img"] ∧
    specStripImgSuffix ".img" = "" ∧
    (flashLoop envReach "image" [".img"]).2 ≠
      [Cmd.fastbootFlash (specStripImgSuffix ".img") "image/.img"] := by
  decide

/-- C3 (amended): for any listing with N entries ending in ".img" and M
others, the loop makes exactly N flash attempts, one per suffixed entry in
listing order, each targeting the splitext root of the entry name, which is
the name with the suffix stripped whenever some character before the final
dot is not a dot (entries such as ".img" keep their full name); the M other
entries produce no outcome. -/
theorem C3_attempts_match_candidates (env : Env) (d : String)
    (files : List String) :
    (flashLoop env d files).2 =
      (files.filter (fun f => endswith f ".img")).map (loopCmd d) ∧
    (flashLoop env d files).1.length =
      (files.filter (fun f => endswith f ".img")).length ∧
    (flashLoop env d files).1.map FlashOutcome.partitionName =
      (files.filter (fun f => endswith f ".img")).map (fun f => (splitext f).1) := by
  rw [flashLoop_eq_filter_map]
  refine ⟨rfl, by simp, ?_⟩
  simp only [List.map_map]
  congr 1
  funext f
  simp [loopOutcome, Function.comp, apply_ite]

/-- C4: when the session requests dynamic-partition mode (answer "y") and
the escalation reboot command fails, or the device is not re-detected by
the probe after the escalation settle delay, the session aborts with no
outcomes and zero partition flash commands. -/
theorem C4_escalation_failure_aborts (env : Env) (d : String)
    (hdir : env.dirExists = true) (htools : env.toolsOk = true)
    (hreach : check_device_connected (env.fastbootDevices 0) = true ∨
      (env.adbRebootBootloader.returncode = 0 ∧
        check_device_connected (env.fastbootDevices 1) = true))
    (hy : pyLower (pyStrip env.choice) = "y")
    (hfail : env.adbRebootFastboot.returncode ≠ 0 ∨
      check_device_connected (env.fastbootDevices
        (if check_device_connected (env.fastbootDevices 0) then 1 else 2)) = false) :
    (flash_images_from_folder env d).status = .abortedEscalation ∧
    (flash_images_from_folder env d).outcomes = [] ∧
    flashCmds (flash_images_from_folder env d).trace = [] := by
  by_cases h0 : check_device_connected (env.fastbootDevices 0) = true
  · rw [if_pos h0] at hfail
    have habort := sessionAfterReach_escalation_abort env d 1
      [.fastbootDevices] hy hfail
    have hsess : flash_images_from_folder env d =
        sessionAfterReach env d 1 [.fastbootDevices] := by
      simp [flash_images_from_folder, hdir, htools, h0]
    rw [hsess]
    refine ⟨habort.1, habort.2.1, ?_⟩
    rcases habort.2.2 with h | h <;> simp [h, flashCmds, isFlashCmd]
  · rw [Bool.not_eq_true] at h0
    rw [if_neg (by simp [h0])] at hfail
    rcases hreach with h | ⟨hrb, h1⟩
    · exact absurd h (by simp [h0])
    · have habort := sessionAfterReach_escalation_abort env d 2
        [.fastbootDevices, .adbRebootBootloader, .fastbootDevices] hy hfail
      have hsess : flash_images_from_folder env d =
          sessionAfterReach env d 2
            [.fastbootDevices, .adbRebootBootloader, .fastbootDevices] := by
        simp [flash_images_from_folder, hdir, htools, h0, hrb, h1]
      rw [hsess]
      refine ⟨habort.1, habort.2.1, ?_⟩
      rcases habort.2.2 with h | h <;> simp [h, flashCmds, isFlashCmd]

/-- C4 witness: a concrete reachable device, a "y" answer at the prompt,
and an escalation reboot command that fails. -/
theorem C4_witness :
    envEscFail.dirExists = true ∧ envEscFail.toolsOk = true ∧
    check_device_connected (envEscFail.fastbootDevices 0) = true ∧
    pyLower (pyStrip envEscFail.choice) = "y" ∧
    envEscFail.adbRebootFastboot.returncode ≠ 0 ∧
    ((flash_images_from_folder envEscFail "image").status =
        .abortedEscalation ∧
      (flash_images_from_folder envEscFail "image").outcomes = [] ∧
      flashCmds (flash_images_from_folder envEscFail "image").trace = []) :=
  ⟨by decide, by decide, by decide, by decide, by decide,
    C4_escalation_failure_aborts envEscFail "image" (by decide) (by decide)
      (Or.inl (by decide)) (by decide) (Or.inl (by decide))⟩

/-- C5: when dynamic-partition mode is not requested (the stripped,
lowercased answer is not "y"), the escalation reboot command is never
issued, on any control path of the session. -/
theorem C5_no_request_no_escalation_reboot (env : Env) (d : String)
    (hn : pyLower (pyStrip env.choice) ≠ "y") :
    Cmd.adbRebootFastboot ∉ (flash_images_from_folder env d).trace := by
  intro hmem
  have hnotflash : Cmd.adbRebootFastboot ∉ (flashLoop env d env.listing).2 := by
    intro hc
    exact absurd (flashLoop_cmds_are_flashes env d env.listing _ hc) (by decide)
  by_cases hdir : env.dirExists = true
  · by_cases htools : env.toolsOk = true
    · by_cases h0 : check_device_connected (env.fastbootDevices 0) = true
      · rw [show flash_images_from_folder env d =
            sessionAfterReach env d 1 [.fastbootDevices] from by
              simp [flash_images_from_folder, hdir, htools, h0]] at hmem
        rw [sessionAfterReach_no_request_trace env d 1 _ hn] at hmem
        simp at hmem
        exact hnotflash hmem
      · rw [Bool.not_eq_true] at h0
        by_cases hrb : env.adbRebootBootloader.returncode = 0
        · by_cases h1 : check_device_connected (env.fastbootDevices 1) = true
          · rw [show flash_images_from_folder env d =
                sessionAfterReach env d 2
                  [.fastbootDevices, .adbRebootBootloader, .fastbootDevices] from by
                    simp [flash_images_from_folder, hdir, htools, h0, hrb, h1]] at hmem
            rw [sessionAfterReach_no_request_trace env d 2 _ hn] at hmem
            simp at hmem
            exact hnotflash hmem
          · rw [Bool.not_eq_true] at h1
            simp [flash_images_from_folder, hdir, htools, h0, hrb, h1] at hmem
        · simp [flash_images_from_folder, hdir, htools, h0, hrb, bne_iff_ne]
            at hmem
    · rw [Bool.not_eq_true] at htools
      simp [flash_images_from_folder, hdir, htools] at hmem
  · rw [Bool.not_eq_true] at hdir
    simp [flash_images_from_folder, hdir] at hmem

/-- C5 witness: the theorem applied to a concrete session that answers "n"
at the fastbootd prompt. -/
theorem C5_witness :
    pyLower (pyStrip envReach.choice) ≠ "y" ∧
    Cmd.adbRebootFastboot ∉ (flash_images_from_folder envReach "image").trace :=
  ⟨by decide,
    C5_no_request_no_escalation_reboot envReach "image" (by decide)⟩

/-- C7 counterexample: on a concrete session the first device-control
command issued is the bootloader-mode listing `fastboot devices`, not the
normal-mode listing the claim prescribes, and the normal-mode listing is
never issued at all. -/
theorem C7_counterexample :
    (flash_images_from_folder envReach "image").trace.head? =
      some Cmd.fastbootDevices ∧
    Cmd.fastbootDevices ≠ specNormalModeProbe ∧
    specNormalModeProbe ∉ (flash_images_from_folder envReach "image").trace := by
  decide

/-- C7 (amended): after the directory and tool checks, the first step of
every session probes connectivity in bootloader mode (`fastboot devices`;
the normal-mode listing is never issued), and the reboot-to-bootloader
command is issued exactly when that probe fails. -/
theorem C7_first_probe_is_bootloader_mode (env : Env) (d : String)
    (hdir : env.dirExists = true) (htools : env.toolsOk = true) :
    (flash_images_from_folder env d).trace.head? = some Cmd.fastbootDevices ∧
    (Cmd.adbRebootBootloader ∈ (flash_images_from_folder env d).trace ↔
      check_device_connected (env.fastbootDevices 0) = false) ∧
    Cmd.adbDevices ∉ (flash_images_from_folder env d).trace := by
  by_cases h0 : check_device_connected (env.fastbootDevices 0) = true
  · rw [show flash_images_from_folder env d =
        sessionAfterReach env d 1 [.fastbootDevices] from by
          simp [flash_images_from_folder, hdir, htools, h0]]
    obtain ⟨rest, hrest⟩ := sessionAfterReach_trace_append env d 1
      [.fastbootDevices]
    refine ⟨by rw [hrest]; rfl, ?_, ?_⟩
    · rw [sessionAfterReach_mem_trace env d 1 [.fastbootDevices]
        Cmd.adbRebootBootloader (by decide) (by decide) (by decide), h0]
      simp
    · rw [sessionAfterReach_mem_trace env d 1 [.fastbootDevices]
        Cmd.adbDevices (by decide) (by decide) (by decide)]
      decide
  · rw [Bool.not_eq_true] at h0
    by_cases hrb : env.adbRebootBootloader.returncode = 0
    · by_cases h1 : check_device_connected (env.fastbootDevices 1) = true
      · rw [show flash_images_from_folder env d =
            sessionAfterReach env d 2
              [.fastbootDevices, .adbRebootBootloader, .fastbootDevices] from by
                simp [flash_images_from_folder, hdir, htools, h0, hrb, h1]]
        obtain ⟨rest, hrest⟩ := sessionAfterReach_trace_append env d 2
          [.fastbootDevices, .adbRebootBootloader, .fastbootDevices]
        refine ⟨by rw [hrest]; rfl, ?_, ?_⟩
        · rw [sessionAfterReach_mem_trace env d 2 _
            Cmd.adbRebootBootloader (by decide) (by decide) (by decide), h0]
          simp
        · rw [sessionAfterReach_mem_trace env d 2 _
            Cmd.adbDevices (by decide) (by decide) (by decide)]
          decide
      · rw [Bool.not_eq_true] at h1
        rw [show flash_images_from_folder env d =
            { status := .abortedUnreachable, outcomes := [],
              trace := [.fastbootDevices, .adbRebootBootloader,
                .fastbootDevices] } from by
              simp [flash_images_from_folder, hdir, htools, h0, hrb, h1]]
        refine ⟨rfl, ?_, by decide⟩
        rw [h0]
        simp
    · rw [show flash_images_from_folder env d =
          { status := .abortedUnreachable, outcomes := [],
            trace := [.fastbootDevices, .adbRebootBootloader] } from by
            simp [flash_images_from_folder, hdir, htools, h0, hrb, bne_iff_ne]]
      refine ⟨rfl, ?_, by decide⟩
      rw [h0]
      simp

/-- C7 witness for the amended theorem: a concrete session with the
directory present and the tools available. -/
theorem C7_witness :
    envReach.dirExists = true ∧ envReach.toolsOk = true ∧
    ((flash_images_from_folder envReach "image").trace.head? =
        some Cmd.fastbootDevices ∧
      (Cmd.adbRebootBootloader ∈ (flash_images_from_folder envReach "image").trace ↔
        check_device_connected (envReach.fastbootDevices 0) = false) ∧
      Cmd.adbDevices ∉ (flash_images_from_folder envReach "image").trace) :=
  ⟨by decide, by decide,
    C7_first_probe_is_bootloader_mode envReach "image" (by decide) (by decide)⟩

/-- C8: invoking the extraction operation with a missing archive reports
the failure, issues no device-control command, and never runs the dumper. -/
theorem C8_missing_archive_fails_without_device_commands (env : ExtractEnv)
    (h : env.payloadExists = false) :
    (unpack_payload env).status = .failedMissingPayload ∧
    (unpack_payload env).deviceCmds = [] ∧
    ExtractEvent.runDumper ∉ (unpack_payload env).events := by
  simp [unpack_payload, h]

/-- C8 witness: the theorem applied to a concrete extraction environment
with a missing archive. -/
theorem C8_witness :
    envNoPayload.payloadExists = false ∧
    ((unpack_payload envNoPayload).status = .failedMissingPayload ∧
      (unpack_payload envNoPayload).deviceCmds = [] ∧
      ExtractEvent.runDumper ∉ (unpack_payload envNoPayload).events) :=
  ⟨by decide,
    C8_missing_archive_fails_without_device_commands envNoPayload (by decide)⟩

/-- C9: in every run of the extraction operation, the very first observable
step is the creation of the output directory (with parents), before the
archive and dumper existence checks, so the directory exists afterwards
even when the run reports failure. -/
theorem C9_output_dir_created_before_checks (env : ExtractEnv) :
    (unpack_payload env).events.head? = some ExtractEvent.mkdirOutputDir ∧
    ExtractEvent.mkdirOutputDir ∈ (unpack_payload env).events := by
  rcases env with ⟨p, dmp, r⟩
  cases p <;> cases dmp <;> cases r <;> exact ⟨rfl, by decide⟩

/-- C6: a missing image directory makes the session fail wholesale: status
reports the missing directory, no outcomes are produced, and no command at
all is issued. -/
theorem C6_missing_directory_aborts (env : Env) (d : String)
    (hdir : env.dirExists = false) :
    (flash_images_from_folder env d).status = .abortedNoDirectory ∧
    (flash_images_from_folder env d).outcomes = [] ∧
    (flash_images_from_folder env d).trace = [] := by
  simp [flash_images_from_folder, hdir]

/-- C6 witness: the theorem applied to a concrete environment whose image
directory is absent. -/
theorem C6_witness :
    envNoDir.dirExists = false ∧
    ((flash_images_from_folder envNoDir "image").status = .abortedNoDirectory ∧
      (flash_images_from_folder envNoDir "image").outcomes = [] ∧
      (flash_images_from_folder envNoDir "image").trace = []) :=
  ⟨by decide, C6_missing_directory_aborts envNoDir "image" (by decide)⟩

/-- C10: a directory entry named exactly ".img" is a flash candidate, and
its partition name is ".img" itself: the suffix is not stripped when only
dots precede it, so the flash command targets partition ".img". -/
theorem C10_dot_img_is_candidate_named_dot_img (env : Env) (d : String) :
    endswith ".img" ".img" = true ∧
    splitext ".img" = (".img", "") ∧
    (flashLoop env d [".img"]).2 =
      [Cmd.fastbootFlash ".img" (path_join d ".img")] ∧
    (flashLoop env d [".img"]).1.map FlashOutcome.partitionName = [".img"] := by
  refine ⟨by decide, by decide, ?_, ?_⟩ <;>
  · rw [flashLoop_eq_filter_map]
    simp [loopCmd, loopOutcome, apply_ite,
      (by decide : endswith ".img" ".img" = true),
      (by decide : splitext ".img" = (".img", ""))]

end FlashTool
